import Mathlib

/-!
Verification of the report-extraction logic of `evaluation.py`.

The program reads a line-oriented CSV report file, extracts metadata from
fixed header lines (lines 2 to 5, 1-indexed) and from every line containing
the marker substring "Error Distribution:", and reads two four-row tables
with `pandas.read_csv(skiprows=..., nrows=4)` starting right after the first
line containing "Error Distribution: Direction" and the first line
containing "Error Distribution: NEVA".

A file is modelled as a list of lines, each line a `List Char` (lines carry
no trailing newline; the Python code strips values, so this is equivalent).
Python string primitives used by the code (`in`, `split`, `strip`) are
modelled by structurally recursive functions on `List Char` so concrete
runs reduce in the kernel.

Error taxonomy (from the design document): the Python code signals the
corresponding failures with `StopIteration` (a `next` over an exhausted
generator, for a missing marker), `IndexError` (a fixed header line missing
or lacking the `": "` separator) and pandas `EmptyDataError` (no lines at
all after the skipped region).  These appear here as `markerNotFound`,
`malformedHeader` and `malformedTable` respectively.
-/

deriving instance DecidableEq for Except

/-- A Python string: a list of characters. -/
abbrev Str := List Char

/-- Test whether `s` begins with `sub` (character by character). -/
def strStartsWith : Str → Str → Bool
  | _, [] => true
  | [], _ :: _ => false
  | c :: s, d :: t => c = d && strStartsWith s t

/-- Index of the first occurrence of `sub` in `s`, scanning left to right,
the semantics of Python `s.find(sub)`.  An empty pattern occurs at 0. -/
def findSub (s sub : Str) : Option Nat :=
  match s with
  | [] => if sub.isEmpty then some 0 else none
  | _ :: rest =>
    if strStartsWith s sub then some 0 else (findSub rest sub).map (· + 1)

/-- Python `sub in s`: substring containment. -/
def pyContains (s sub : Str) : Bool := (findSub s sub).isSome

/-- Fuel-driven worker for `pySplit`: repeatedly cut at the leftmost
occurrence of the separator. -/
def pySplitF : Nat → Str → Str → List Str
  | 0, _, s => [s]
  | fuel + 1, sep, s =>
    match findSub s sep with
    | none => [s]
    | some i => s.take i :: pySplitF fuel sep (s.drop (i + sep.length))

/-- Python `s.split(sep)` for a non-empty separator: the pieces of `s`
between non-overlapping, leftmost-first occurrences of `sep`.  Each cut
removes at least one character, so `s.length + 1` units of fuel always
suffice. -/
def pySplit (sep s : Str) : List Str := pySplitF (s.length + 1) sep s

/-- Characters removed by Python `str.strip()`. -/
def isPySpace (c : Char) : Bool :=
  c = ' ' || c = '\t' || c = '\n' || c = '\r' || c = '\x0b' || c = '\x0c'

/-- Python `s.strip()`: remove leading and trailing whitespace. -/
def pyStrip (s : Str) : Str :=
  ((s.dropWhile isPySpace).reverse.dropWhile isPySpace).reverse

/-- Python `sep.join(xs)`. -/
def pyJoin (sep : Str) : List Str → Str
  | [] => []
  | [x] => x
  | x :: y :: rest => x ++ sep ++ pyJoin sep (y :: rest)

/-- Numeric value of a list of decimal digit characters. -/
def natOfDigits (cs : List Char) : Nat :=
  cs.foldl (fun a c => a * 10 + (c.toNat - 48)) 0

/-- Parse an unsigned decimal literal (`"12"`, `"12.3"`, `".5"`, `"12."`)
as an exact rational with the given sign; anything else is not numeric.
The value is assembled with one `mkRat` because rational arithmetic does
not reduce in the kernel. -/
def parseUnsigned? (sign : Int) (cs : Str) : Option ℚ :=
  let ip := cs.takeWhile (·.isDigit)
  let rest := cs.dropWhile (·.isDigit)
  match rest with
  | [] => if ip.isEmpty then none else some (mkRat (sign * natOfDigits ip) 1)
  | '.' :: fp =>
    if fp.all (·.isDigit) && !(ip.isEmpty && fp.isEmpty) then
      some (mkRat (sign * (natOfDigits ip * 10 ^ fp.length + natOfDigits fp))
        (10 ^ fp.length))
    else none
  | _ => none

/-- Parse an optionally signed decimal literal, the fragment of the pandas
numeric conversion exercised by the percentage cells of these reports. -/
def parseNum? (s : Str) : Option ℚ :=
  match s with
  | '-' :: t => parseUnsigned? (-1) t
  | '+' :: t => parseUnsigned? 1 t
  | _ => parseUnsigned? 1 s

/-- A value in a parsed table: a number, a text cell (in a column pandas
left as strings), or a missing value. -/
inductive Cell where
  | num (q : ℚ)
  | str (s : Str)
  | nan
deriving DecidableEq, Repr

/-- A parsed table: the column names from the header line, and the data
rows. -/
structure ErrorTable where
  header : List Str
  rows : List (List Cell)
deriving DecidableEq, Repr

/-- Failure modes of extraction (see the module comment for how each one
arises in the Python code). -/
inductive ExtractError where
  | markerNotFound
  | malformedHeader
  | malformedTable
deriving DecidableEq, Repr

/-- The metadata record built by `extract_metadata`. -/
structure Metadata where
  instruments : Str
  periode : Str
  model : Str
  region : Str
  type_erreur : Str
deriving DecidableEq, Repr

/-- Marker substring located for the direction table
(the Python test `in` with "Error Distribution: Direction"). -/
def dirMarker : Str := "Error Distribution: Direction".data

/-- Marker substring located for the NEVA table
(the Python test `in` with "Error Distribution: NEVA"). -/
def nevaMarker : Str := "Error Distribution: NEVA".data

/-- Marker substring scanned for by the metadata loop
(the Python test `in` with "Error Distribution:"). -/
def errMarker : Str := "Error Distribution:".data

/-- The `": "` separator of the fixed metadata lines. -/
def metaSep : Str := ": ".data

/-- The CSV cell separator. -/
def commaSep : Str := ",".data

/-- The open parenthesis the error-type parameter is split on. -/
def openParen : Str := "(".data

/-- The close parenthesis the error-type parameter is split on. -/
def closeParen : Str := ")".data

/-- The `", "` separator joining error-type descriptors. -/
def joinSep : Str := ", ".data

/-- Model of `next(i for i, line in enumerate(content) if sub in line)`:
index of the first line containing `sub`; an exhausted generator raises
`StopIteration`, modelled as `markerNotFound`. -/
def locate_marker (lines : List Str) (sub : Str) : Except ExtractError Nat :=
  match lines with
  | [] => .error .markerNotFound
  | l :: rest =>
    if pyContains l sub then .ok 0 else (locate_marker rest sub).map (· + 1)

/-- Pad a raw row on the right with missing values up to width `w`
(pandas fills short rows with NaN). -/
def padRow (w : Nat) (r : List Str) : List (Option Str) :=
  r.map some ++ List.replicate (w - r.length) none

/-- Column `j` gets a numeric dtype when every present, non-empty cell in
it parses as a number (pandas infers dtypes per column). -/
def colIsNumeric (padded : List (List (Option Str))) (j : Nat) : Bool :=
  padded.all fun r =>
    match r.getD j none with
    | none => true
    | some s => s.isEmpty || (parseNum? s).isSome

/-- Convert one raw cell given the dtype of its column: missing and empty
cells become NaN, cells of a numeric column become numbers, and cells of a
non-numeric column stay text. -/
def cellOf (numeric : Bool) (c : Option Str) : Cell :=
  match c with
  | none => .nan
  | some s =>
    if s.isEmpty then .nan
    else if numeric then
      match parseNum? s with
      | some q => .num q
      | none => .nan
    else .str s

/-- Model of `pd.read_csv(file_path, skiprows=skiprows, nrows=nrows,
engine=python)` on the same file contents: skip `skiprows` lines, skip
blank lines, take the next line as the column header, parse at most
`nrows` further lines as comma-separated data rows, and infer dtypes per
column.  A file with nothing left after the skipped region raises pandas
`EmptyDataError`, modelled as `malformedTable`; a data row wider than the
header is rejected by the python engine, likewise modelled as
`malformedTable`.  (The pandas promotion of a uniformly one-field-wider
body to an implicit index column is not modelled; no theorem below feeds
`read_csv` such rows.) -/
def read_csv (lines : List Str) (skiprows nrows : Nat) :
    Except ExtractError ErrorTable :=
  match (lines.drop skiprows).filter (fun l => !l.isEmpty) with
  | [] => .error .malformedTable
  | header :: body =>
    let cols := pySplit commaSep header
    let raws := (body.take nrows).map (pySplit commaSep)
    if raws.any (fun r => cols.length < r.length) then .error .malformedTable
    else
      let padded := raws.map (padRow cols.length)
      .ok ⟨cols, padded.map fun r =>
        r.enum.map fun p => cellOf (colIsNumeric padded p.1) p.2⟩

/-- Model of `load_and_process_data`: locate the two markers, then read a
four-row table from the line after each marker line (the line immediately
after the marker is consumed as the column header). -/
def load_and_process_data (content : List Str) :
    Except ExtractError (ErrorTable × ErrorTable) := do
  let dir_start ← locate_marker content dirMarker
  let neva_start ← locate_marker content nevaMarker
  let dir_data ← read_csv content (dir_start + 1) 4
  let neva_data ← read_csv content (neva_start + 1) 4
  pure (dir_data, neva_data)

/-- Model of the expression `content[i].split(sep)[1].strip()` with the
`": "` separator, used for
each of the four fixed metadata fields; both ways it can raise
`IndexError` (too few lines, or a line without the separator) are
`malformedHeader`. -/
def getField (content : List Str) (i : Nat) : Except ExtractError Str :=
  match content[i]? with
  | none => .error .malformedHeader
  | some line =>
    match (pySplit metaSep line)[1]? with
    | none => .error .malformedHeader
    | some v => .ok (pyStrip v)

/-- Model of the error-type loop body: for a line containing
"Error Distribution:", the pair of the kind (text after the marker up to
the first open parenthesis, stripped) and the parameter (text between the
first open parenthesis and the next close parenthesis, empty when the line
has no open parenthesis). -/
def parsePair (line : Str) : Option (Str × Str) :=
  if pyContains line errMarker then
    let info := pyStrip ((pySplit errMarker line).getD 1 [])
    let param :=
      if pyContains info openParen then
        (pySplit closeParen ((pySplit openParen info).getD 1 [])).getD 0 []
      else []
    let kind := pyStrip ((pySplit openParen info).getD 0 [])
    some (kind, param)
  else none

/-- The descriptor `f"{error_type} ({param})"` appended for each marker
line. -/
def descriptor (p : Str × Str) : Str :=
  p.1 ++ " (".data ++ p.2 ++ ")".data

/-- The list of error-type descriptors of all marker lines, in file
order. -/
def error_types_of (content : List Str) : List Str :=
  (content.filterMap parsePair).map descriptor

/-- Model of `extract_metadata`: the four fixed fields from lines at
indices 1 to 4, and the comma-joined error-type descriptors. -/
def extract_metadata (content : List Str) : Except ExtractError Metadata := do
  let instruments ← getField content 1
  let periode ← getField content 2
  let model ← getField content 3
  let region ← getField content 4
  pure ⟨instruments, periode, model, region,
    pyJoin joinSep (error_types_of content)⟩

/-- The whole extraction a file selection triggers: the two tables from
`load_and_process_data` together with the metadata record (the design
document calls `extract`). -/
def extract (content : List Str) :
    Except ExtractError (Metadata × ErrorTable × ErrorTable) := do
  let tables ← load_and_process_data content
  let m ← extract_metadata content
  pure (m, tables.1, tables.2)

/-- The line layout of a report the valid-report theorems quantify over: a
title line, the four fixed metadata lines, arbitrary filler, the direction
marker with its header line and four data rows, more filler, the NEVA
marker with its header line and four data rows, and a trailing rest. -/
def reportShape (t l1 l2 l3 l4 : Str) (mid1 : List Str)
    (dmark dhead d1 d2 d3 d4 : Str) (mid2 : List Str)
    (nmark nhead n1 n2 n3 n4 : Str) (tail : List Str) : List Str :=
  t :: l1 :: l2 :: l3 :: l4 ::
    (mid1 ++ dmark :: dhead :: d1 :: d2 :: d3 :: d4 ::
      (mid2 ++ nmark :: nhead :: n1 :: n2 :: n3 :: n4 :: tail))

/-!  Helper lemmas about the model. -/

theorem locate_error_eq {lines : List Str} {sub : Str} {e : ExtractError}
    (h : locate_marker lines sub = .error e) : e = .markerNotFound := by
  induction lines with
  | nil =>
    unfold locate_marker at h
    simp only [Except.error.injEq] at h
    exact h.symm
  | cons a rest ih =>
    unfold locate_marker at h
    by_cases ha : pyContains a sub
    · simp [ha] at h
    · simp only [ha, if_false, Bool.false_eq_true] at h
      cases hr : locate_marker rest sub with
      | error e2 =>
        rw [hr] at h
        simp only [Except.map, Except.error.injEq] at h
        exact ih (h ▸ hr)
      | ok k =>
        rw [hr] at h
        simp [Except.map] at h

theorem locate_none {sub : Str} {lines : List Str}
    (h : ∀ l ∈ lines, pyContains l sub = false) :
    locate_marker lines sub = .error .markerNotFound := by
  induction lines with
  | nil => rfl
  | cons a rest ih =>
    have ha := h a (by simp)
    simp [locate_marker, ha, ih (fun l hl => h l (by simp [hl])), Except.map]

theorem locate_cons_pos {l : Str} {sub : Str} (rest : List Str)
    (h : pyContains l sub = true) : locate_marker (l :: rest) sub = .ok 0 := by
  simp [locate_marker, h]

theorem locate_append_ok {sub : Str} {k : Nat} (xs : List Str) {ys : List Str}
    (hxs : ∀ x ∈ xs, pyContains x sub = false)
    (hys : locate_marker ys sub = .ok k) :
    locate_marker (xs ++ ys) sub = .ok (xs.length + k) := by
  induction xs with
  | nil => simpa using hys
  | cons a as ih =>
    have ha := hxs a (by simp)
    have hrec := ih (fun x hx => hxs x (by simp [hx]))
    simp only [List.cons_append]
    unfold locate_marker
    rw [ha, hrec]
    simp only [Except.map, Except.ok.injEq, if_false, Bool.false_eq_true,
      List.length_cons]
    omega

theorem pySplit_of_not_contains {s sep : Str} (h : pyContains s sep = false) :
    pySplit sep s = [s] := by
  have hf : findSub s sep = none := by
    cases hf : findSub s sep with
    | none => rfl
    | some i => unfold pyContains at h; rw [hf] at h; simp at h
  simp [pySplit, pySplitF, hf]

theorem getField_error_eq {cont : List Str} {i : Nat} {e : ExtractError}
    (h : getField cont i = .error e) : e = .malformedHeader := by
  unfold getField at h
  split at h
  · injection h with h
    exact h.symm
  · split at h
    · injection h with h
      exact h.symm
    · exact absurd h (by simp)

theorem getField_ok_facts {cont : List Str} {i : Nat} {v : Str}
    (h : getField cont i = .ok v) :
    i < cont.length ∧ pyContains (cont.getD i []) metaSep = true := by
  unfold getField at h
  split at h
  · exact absurd h (by simp)
  · rename_i line hc
    split at h
    · exact absurd h (by simp)
    · rename_i v2 hs
      refine ⟨(List.getElem?_eq_some.mp hc).1, ?_⟩
      have hline : cont.getD i [] = line := by
        simp [List.getD_eq_getElem?_getD, hc]
      rw [hline]
      cases hp : pyContains line metaSep with
      | true => rfl
      | false =>
        rw [pySplit_of_not_contains hp] at hs
        simp at hs

theorem drop_length_add (xs ys : List α) (n : Nat) :
    (xs ++ ys).drop (xs.length + n) = ys.drop n := by
  induction xs with
  | nil => simp
  | cons a as ih =>
    have hlen : (a :: as).length + n = (as.length + n) + 1 := by
      simp [List.length_cons]; omega
    rw [hlen]
    simp only [List.cons_append, List.drop_succ_cons]
    exact ih

theorem parsePair_eq_none {l : Str} (h : pyContains l errMarker = false) :
    parsePair l = none := by
  simp [parsePair, h]

theorem filterMap_parsePair_nil {xs : List Str}
    (h : ∀ l ∈ xs, pyContains l errMarker = false) :
    xs.filterMap parsePair = [] :=
  List.filterMap_eq_nil_iff.mpr fun a ha => parsePair_eq_none (h a ha)

theorem extract_metadata_shape (t l1 l2 l3 l4 : Str) (rest : List Str)
    {v1 v2 v3 v4 : Str}
    (h1 : (pySplit metaSep l1)[1]? = some v1)
    (h2 : (pySplit metaSep l2)[1]? = some v2)
    (h3 : (pySplit metaSep l3)[1]? = some v3)
    (h4 : (pySplit metaSep l4)[1]? = some v4) :
    extract_metadata (t :: l1 :: l2 :: l3 :: l4 :: rest)
      = .ok ⟨pyStrip v1, pyStrip v2, pyStrip v3, pyStrip v4,
          pyJoin joinSep
            (error_types_of (t :: l1 :: l2 :: l3 :: l4 :: rest))⟩ := by
  have g1 : getField (t :: l1 :: l2 :: l3 :: l4 :: rest) 1 = .ok (pyStrip v1) := by
    unfold getField; simp [h1]
  have g2 : getField (t :: l1 :: l2 :: l3 :: l4 :: rest) 2 = .ok (pyStrip v2) := by
    unfold getField; simp [h2]
  have g3 : getField (t :: l1 :: l2 :: l3 :: l4 :: rest) 3 = .ok (pyStrip v3) := by
    unfold getField; simp [h3]
  have g4 : getField (t :: l1 :: l2 :: l3 :: l4 :: rest) 4 = .ok (pyStrip v4) := by
    unfold getField; simp [h4]
  unfold extract_metadata
  rw [g1]
  show (getField _ 2 >>= _) = _
  rw [g2]
  show (getField _ 3 >>= _) = _
  rw [g3]
  show (getField _ 4 >>= _) = _
  rw [g4]
  rfl

theorem parseNum_isEmpty_false {s : Str} {q : ℚ} (h : parseNum? s = some q) :
    s.isEmpty = false := by
  cases s with
  | nil => simp [parseNum?, parseUnsigned?] at h
  | cons c cs => rfl

theorem read_csv_four_rows
    (lines : List Str) (k : Nat) (dhead r1 r2 r3 r4 : Str) (rest : List Str)
    (hb hc1 hc2 a1 x1 y1 a2 x2 y2 a3 x3 y3 a4 x4 y4 : Str)
    (q1 p1 q2 p2 q3 p3 q4 p4 : ℚ)
    (hdrop : lines.drop k = dhead :: r1 :: r2 :: r3 :: r4 :: rest)
    (hne : dhead ≠ [] ∧ r1 ≠ [] ∧ r2 ≠ [] ∧ r3 ≠ [] ∧ r4 ≠ [])
    (hsplit : pySplit commaSep dhead = [hb, hc1, hc2] ∧
      pySplit commaSep r1 = [a1, x1, y1] ∧ pySplit commaSep r2 = [a2, x2, y2] ∧
      pySplit commaSep r3 = [a3, x3, y3] ∧ pySplit commaSep r4 = [a4, x4, y4])
    (hlab : parseNum? a1 = none ∧ parseNum? a2 = none ∧ parseNum? a3 = none ∧
      parseNum? a4 = none ∧ a1 ≠ [] ∧ a2 ≠ [] ∧ a3 ≠ [] ∧ a4 ≠ [])
    (hnum : parseNum? x1 = some q1 ∧ parseNum? y1 = some p1 ∧
      parseNum? x2 = some q2 ∧ parseNum? y2 = some p2 ∧
      parseNum? x3 = some q3 ∧ parseNum? y3 = some p3 ∧
      parseNum? x4 = some q4 ∧ parseNum? y4 = some p4) :
    read_csv lines k 4 = .ok ⟨[hb, hc1, hc2],
      [[.str a1, .num q1, .num p1], [.str a2, .num q2, .num p2],
       [.str a3, .num q3, .num p3], [.str a4, .num q4, .num p4]]⟩ := by
  obtain ⟨hne0, hne1, hne2, hne3, hne4⟩ := hne
  obtain ⟨hs0, hs1, hs2, hs3, hs4⟩ := hsplit
  obtain ⟨hl1, hl2, hl3, hl4, hl1e, hl2e, hl3e, hl4e⟩ := hlab
  obtain ⟨hx1, hy1, hx2, hy2, hx3, hy3, hx4, hy4⟩ := hnum
  have e0 : dhead.isEmpty = false := by simp [List.isEmpty_iff, hne0]
  have e1 : r1.isEmpty = false := by simp [List.isEmpty_iff, hne1]
  have e2 : r2.isEmpty = false := by simp [List.isEmpty_iff, hne2]
  have e3 : r3.isEmpty = false := by simp [List.isEmpty_iff, hne3]
  have e4 : r4.isEmpty = false := by simp [List.isEmpty_iff, hne4]
  have ea1 : a1.isEmpty = false := by simp [List.isEmpty_iff, hl1e]
  have ea2 : a2.isEmpty = false := by simp [List.isEmpty_iff, hl2e]
  have ea3 : a3.isEmpty = false := by simp [List.isEmpty_iff, hl3e]
  have ea4 : a4.isEmpty = false := by simp [List.isEmpty_iff, hl4e]
  have ex1 := parseNum_isEmpty_false hx1
  have ex2 := parseNum_isEmpty_false hx2
  have ex3 := parseNum_isEmpty_false hx3
  have ex4 := parseNum_isEmpty_false hx4
  have ey1 := parseNum_isEmpty_false hy1
  have ey2 := parseNum_isEmpty_false hy2
  have ey3 := parseNum_isEmpty_false hy3
  have ey4 := parseNum_isEmpty_false hy4
  unfold read_csv
  rw [hdrop]
  simp only [List.filter_cons, e0, e1, e2, e3, e4, Bool.not_false, if_true,
    Bool.not_true, if_false]
  simp only [List.take_succ_cons, List.take_zero, List.map_cons, List.map_nil,
    hs0, hs1, hs2, hs3, hs4]
  simp [padRow, colIsNumeric, cellOf, List.enum, List.enumFrom,
    List.getD, List.get?, Option.getD_some,
    hl1, hl2, hl3, hl4, hx1, hy1, hx2, hy2, hx3, hy3, hx4, hy4,
    ea1, ea2, ea3, ea4, ex1, ex2, ex3, ex4, ey1, ey2, ey3, ey4]
  refine ⟨⟨hl1e, ?_, ?_⟩, ⟨hl2e, ?_, ?_⟩, ⟨hl3e, ?_, ?_⟩, hl4e, ?_, ?_⟩ <;>
    simp_all [List.isEmpty_iff]

theorem read_csv_two_rows
    (lines : List Str) (k : Nat) (dhead r1 r2 : Str)
    (hb hc1 hc2 a1 x1 y1 a2 x2 y2 : Str) (q1 p1 q2 p2 : ℚ)
    (hdrop : lines.drop k = [dhead, r1, r2])
    (hne : dhead ≠ [] ∧ r1 ≠ [] ∧ r2 ≠ [])
    (hsplit : pySplit commaSep dhead = [hb, hc1, hc2] ∧
      pySplit commaSep r1 = [a1, x1, y1] ∧ pySplit commaSep r2 = [a2, x2, y2])
    (hlab : parseNum? a1 = none ∧ parseNum? a2 = none ∧ a1 ≠ [] ∧ a2 ≠ [])
    (hnum : parseNum? x1 = some q1 ∧ parseNum? y1 = some p1 ∧
      parseNum? x2 = some q2 ∧ parseNum? y2 = some p2) :
    read_csv lines k 4 = .ok ⟨[hb, hc1, hc2],
      [[.str a1, .num q1, .num p1], [.str a2, .num q2, .num p2]]⟩ := by
  obtain ⟨hne0, hne1, hne2⟩ := hne
  obtain ⟨hs0, hs1, hs2⟩ := hsplit
  obtain ⟨hl1, hl2, hl1e, hl2e⟩ := hlab
  obtain ⟨hx1, hy1, hx2, hy2⟩ := hnum
  have e0 : dhead.isEmpty = false := by simp [List.isEmpty_iff, hne0]
  have e1 : r1.isEmpty = false := by simp [List.isEmpty_iff, hne1]
  have e2 : r2.isEmpty = false := by simp [List.isEmpty_iff, hne2]
  have ea1 : a1.isEmpty = false := by simp [List.isEmpty_iff, hl1e]
  have ea2 : a2.isEmpty = false := by simp [List.isEmpty_iff, hl2e]
  have ex1 := parseNum_isEmpty_false hx1
  have ex2 := parseNum_isEmpty_false hx2
  have ey1 := parseNum_isEmpty_false hy1
  have ey2 := parseNum_isEmpty_false hy2
  unfold read_csv
  rw [hdrop]
  simp only [List.filter_cons, List.filter_nil, e0, e1, e2, Bool.not_false,
    if_true, Bool.not_true, if_false]
  simp only [List.take_succ_cons, List.take_nil, List.map_cons, List.map_nil,
    hs0, hs1, hs2]
  simp [padRow, colIsNumeric, cellOf, List.enum, List.enumFrom,
    List.getD, List.get?, Option.getD_some,
    hl1, hl2, hx1, hy1, hx2, hy2, ea1, ea2, ex1, ex2, ey1, ey2]
  refine ⟨⟨hl1e, ?_, ?_⟩, hl2e, ?_, ?_⟩ <;> simp_all [List.isEmpty_iff]

theorem read_csv_four_rows_text_col
    (lines : List Str) (k : Nat) (dhead r1 r2 r3 r4 : Str) (rest : List Str)
    (hb hc1 hc2 a1 x1 y1 a2 x2 y2 a3 x3 y3 a4 x4 y4 : Str)
    (p1 p2 p3 p4 : ℚ)
    (hdrop : lines.drop k = dhead :: r1 :: r2 :: r3 :: r4 :: rest)
    (hne : dhead ≠ [] ∧ r1 ≠ [] ∧ r2 ≠ [] ∧ r3 ≠ [] ∧ r4 ≠ [])
    (hsplit : pySplit commaSep dhead = [hb, hc1, hc2] ∧
      pySplit commaSep r1 = [a1, x1, y1] ∧ pySplit commaSep r2 = [a2, x2, y2] ∧
      pySplit commaSep r3 = [a3, x3, y3] ∧ pySplit commaSep r4 = [a4, x4, y4])
    (hlab : parseNum? a1 = none ∧ parseNum? a2 = none ∧ parseNum? a3 = none ∧
      parseNum? a4 = none ∧ a1 ≠ [] ∧ a2 ≠ [] ∧ a3 ≠ [] ∧ a4 ≠ [])
    (hbad : parseNum? x2 = none ∧ x1 ≠ [] ∧ x2 ≠ [] ∧ x3 ≠ [] ∧ x4 ≠ [])
    (hnum : parseNum? y1 = some p1 ∧ parseNum? y2 = some p2 ∧
      parseNum? y3 = some p3 ∧ parseNum? y4 = some p4) :
    read_csv lines k 4 = .ok ⟨[hb, hc1, hc2],
      [[.str a1, .str x1, .num p1], [.str a2, .str x2, .num p2],
       [.str a3, .str x3, .num p3], [.str a4, .str x4, .num p4]]⟩ := by
  obtain ⟨hne0, hne1, hne2, hne3, hne4⟩ := hne
  obtain ⟨hs0, hs1, hs2, hs3, hs4⟩ := hsplit
  obtain ⟨hl1, hl2, hl3, hl4, hl1e, hl2e, hl3e, hl4e⟩ := hlab
  obtain ⟨hx2, hx1e, hx2e, hx3e, hx4e⟩ := hbad
  obtain ⟨hy1, hy2, hy3, hy4⟩ := hnum
  have e0 : dhead.isEmpty = false := by simp [List.isEmpty_iff, hne0]
  have e1 : r1.isEmpty = false := by simp [List.isEmpty_iff, hne1]
  have e2 : r2.isEmpty = false := by simp [List.isEmpty_iff, hne2]
  have e3 : r3.isEmpty = false := by simp [List.isEmpty_iff, hne3]
  have e4 : r4.isEmpty = false := by simp [List.isEmpty_iff, hne4]
  have ea1 : a1.isEmpty = false := by simp [List.isEmpty_iff, hl1e]
  have ea2 : a2.isEmpty = false := by simp [List.isEmpty_iff, hl2e]
  have ea3 : a3.isEmpty = false := by simp [List.isEmpty_iff, hl3e]
  have ea4 : a4.isEmpty = false := by simp [List.isEmpty_iff, hl4e]
  have ex1 : x1.isEmpty = false := by simp [List.isEmpty_iff, hx1e]
  have ex2 : x2.isEmpty = false := by simp [List.isEmpty_iff, hx2e]
  have ex3 : x3.isEmpty = false := by simp [List.isEmpty_iff, hx3e]
  have ex4 : x4.isEmpty = false := by simp [List.isEmpty_iff, hx4e]
  have ey1 := parseNum_isEmpty_false hy1
  have ey2 := parseNum_isEmpty_false hy2
  have ey3 := parseNum_isEmpty_false hy3
  have ey4 := parseNum_isEmpty_false hy4
  unfold read_csv
  rw [hdrop]
  simp only [List.filter_cons, e0, e1, e2, e3, e4, Bool.not_false, if_true,
    Bool.not_true, if_false]
  simp only [List.take_succ_cons, List.take_zero, List.map_cons, List.map_nil,
    hs0, hs1, hs2, hs3, hs4]
  simp [padRow, colIsNumeric, cellOf, List.enum, List.enumFrom,
    List.getD, List.get?, Option.getD_some,
    hl1, hl2, hl3, hl4, hx2, hy1, hy2, hy3, hy4,
    ea1, ea2, ea3, ea4, ex1, ex2, ex3, ex4, ey1, ey2, ey3, ey4]
  refine ⟨⟨hl1e, ?_, ?_⟩, ⟨hl2e, ?_, ?_⟩, ⟨hl3e, ?_, ?_⟩, hl4e, ?_, ?_⟩ <;>
    simp_all [List.isEmpty_iff]

/-!  Claim theorems. -/

/-- Claim C7: `locate_marker` returns the index of the first line containing
the substring, and fails with `markerNotFound` (never silently defaulting to
an index) when no line contains it.  The three parts: any returned index is
the first match; a list with no matching line yields the error; and a list
containing a matching line does yield an index. -/
theorem locate_marker_correct (lines : List Str) (sub : Str) :
    (∀ i, locate_marker lines sub = .ok i →
      i < lines.length ∧ pyContains (lines.getD i []) sub = true ∧
        ∀ j, j < i → pyContains (lines.getD j []) sub = false) ∧
    ((∀ l ∈ lines, pyContains l sub = false) →
      locate_marker lines sub = .error .markerNotFound) ∧
    ((∃ l ∈ lines, pyContains l sub = true) →
      ∃ i, locate_marker lines sub = .ok i) := by
  refine ⟨?_, locate_none, ?_⟩
  · induction lines with
    | nil => intro i h; simp [locate_marker] at h
    | cons a rest ih =>
      intro i h
      cases hb : pyContains a sub with
      | true =>
        rw [locate_cons_pos rest hb] at h
        injection h with h
        subst h
        exact ⟨by simp, by simpa using hb, fun j hj => absurd hj (by omega)⟩
      | false =>
        unfold locate_marker at h
        rw [hb] at h
        simp only [Bool.false_eq_true, if_false] at h
        cases hr : locate_marker rest sub with
        | error e => rw [hr] at h; simp [Except.map] at h
        | ok k =>
          rw [hr] at h
          simp only [Except.map, Except.ok.injEq] at h
          subst h
          obtain ⟨hk1, hk2, hk3⟩ := ih k hr
          refine ⟨by simpa using hk1, by simpa using hk2, ?_⟩
          intro j hj
          cases j with
          | zero => simpa using hb
          | succ j2 => simpa using hk3 j2 (by omega)
  · induction lines with
    | nil => rintro ⟨l, hl, _⟩; cases hl
    | cons a rest ih =>
      rintro ⟨l, hl, hcon⟩
      cases hb : pyContains a sub with
      | true => exact ⟨0, locate_cons_pos rest hb⟩
      | false =>
        have hlr : l ∈ rest := by
          rcases List.mem_cons.mp hl with rfl | h
          · exact absurd hcon (by simp [hb])
          · exact h
        obtain ⟨i, hi⟩ := ih ⟨l, hlr, hcon⟩
        exact ⟨i + 1, by simp [locate_marker, hb, hi, Except.map]⟩

/-- Witness for C7: a list whose second line contains the substring yields
an index, and a list in which no line contains it makes `locate_marker`
fail with `markerNotFound`. -/
theorem locate_marker_correct_witness :
    (∃ i, locate_marker [ "alpha".data, "the Error line".data]
      ( "Error".data) = .ok i) ∧
    locate_marker [ "alpha".data, "beta".data] ( "Error".data)
      = .error .markerNotFound :=
  ⟨(locate_marker_correct _ _).2.2
      ⟨ "the Error line".data, by decide, by decide⟩,
    (locate_marker_correct _ _).2.1 (by decide)⟩

/-- Claim C4: a file with no line containing "Error Distribution: NEVA"
makes the table-extraction entry point fail with `markerNotFound`, and no
part of the result is returned (in particular the direction table alone is
never returned); the composed extraction fails the same way. -/
theorem missing_neva_fails (content : List Str)
    (h : ∀ l ∈ content, pyContains l nevaMarker = false) :
    load_and_process_data content = .error .markerNotFound ∧
    extract content = .error .markerNotFound := by
  have hload : load_and_process_data content = .error .markerNotFound := by
    unfold load_and_process_data
    cases hd : locate_marker content dirMarker with
    | error e =>
      have he := locate_error_eq hd
      subst he
      rfl
    | ok i =>
      show (locate_marker content nevaMarker >>= _) = _
      rw [locate_none h]
      rfl
  exact ⟨hload, by unfold extract; rw [hload]; rfl⟩

/-- Witness for C4: a file whose direction marker, header and four data
rows are present and well formed, but which has no NEVA marker line. -/
theorem missing_neva_fails_witness :
    load_and_process_data
        [ "Title".data, "Instruments: A".data, "Période: P".data,
          "Modèle: M".data, "Région: R".data,
          "Error Distribution: Direction (d0)".data, "bucket,a,b".data,
          "r1,1.0,2.0".data, "r2,3.0,4.0".data, "r3,5.0,6.0".data,
          "r4,7.0,8.0".data]
      = .error .markerNotFound ∧
    extract
        [ "Title".data, "Instruments: A".data, "Période: P".data,
          "Modèle: M".data, "Région: R".data,
          "Error Distribution: Direction (d0)".data, "bucket,a,b".data,
          "r1,1.0,2.0".data, "r2,3.0,4.0".data, "r3,5.0,6.0".data,
          "r4,7.0,8.0".data]
      = .error .markerNotFound :=
  missing_neva_fails _ (by decide)

/-- Claim C5: metadata extraction fails with `malformedHeader` for every
file with fewer than 5 lines, and for every file in which one of the lines
at indices 1 to 4 (lines 2 to 5, 1-indexed) does not contain the `": "`
separator. -/
theorem malformed_header_fails (content : List Str)
    (h : content.length < 5 ∨
      ∃ i, 1 ≤ i ∧ i ≤ 4 ∧ pyContains (content.getD i []) metaSep = false) :
    extract_metadata content = .error .malformedHeader := by
  unfold extract_metadata
  cases h1 : getField content 1 with
  | error e => rw [getField_error_eq h1]; rfl
  | ok v1 =>
    show (getField content 2 >>= _) = _
    cases h2 : getField content 2 with
    | error e => rw [getField_error_eq h2]; rfl
    | ok v2 =>
      show (getField content 3 >>= _) = _
      cases h3 : getField content 3 with
      | error e => rw [getField_error_eq h3]; rfl
      | ok v3 =>
        show (getField content 4 >>= _) = _
        cases h4 : getField content 4 with
        | error e => rw [getField_error_eq h4]; rfl
        | ok v4 =>
          exfalso
          obtain ⟨len1, con1⟩ := getField_ok_facts h1
          obtain ⟨len2, con2⟩ := getField_ok_facts h2
          obtain ⟨len3, con3⟩ := getField_ok_facts h3
          obtain ⟨len4, con4⟩ := getField_ok_facts h4
          simp only [List.getD_eq_getElem?_getD] at con1 con2 con3 con4
          rcases h with hlen | ⟨i, hi1, hi4, hci⟩
          · omega
          · interval_cases i
            · simp [con1] at hci
            · simp [con2] at hci
            · simp [con3] at hci
            · simp [con4] at hci

/-- Witness for C5: a five-line file whose third line lacks the `": "`
separator. -/
theorem malformed_header_fails_witness :
    extract_metadata
        [ "Title".data, "Instruments: A".data, "no separator here".data,
          "Modèle: M".data, "Région: R".data]
      = .error .malformedHeader :=
  malformed_header_fails _ (Or.inr ⟨2, by decide, by decide, by decide⟩)

/-- Claim C6: the error-type parsing of marker lines: a line containing
"Error Distribution: Direction (HIRES)" parses to the pair
`(kind, parameter) = ("Direction", "HIRES")`, and a line containing
"Error Distribution: NEVA" with no parentheses parses to `("NEVA", "")`. -/
theorem parse_error_type_pairs :
    parsePair ( "2024 Error Distribution: Direction (HIRES) end".data)
      = some ( "Direction".data, "HIRES".data) ∧
    parsePair ( "2024 Error Distribution: NEVA".data)
      = some ( "NEVA".data, []) := by decide

/-- Claim C8: extraction is a deterministic function of the file contents
alone; running it twice on the same unmodified contents yields identical
metadata and identical tables. -/
theorem extraction_deterministic (c1 c2 : List Str) (h : c1 = c2) :
    extract c1 = extract c2 ∧ extract_metadata c1 = extract_metadata c2 ∧
    load_and_process_data c1 = load_and_process_data c2 := by
  subst h
  exact ⟨rfl, rfl, rfl⟩

/-- Witness for C8: the determinism theorem applied to a concrete file. -/
theorem extraction_deterministic_witness :
    extract [ "Title".data, "A: x".data] = extract [ "Title".data, "A: x".data] ∧
    extract_metadata [ "Title".data, "A: x".data]
      = extract_metadata [ "Title".data, "A: x".data] ∧
    load_and_process_data [ "Title".data, "A: x".data]
      = load_and_process_data [ "Title".data, "A: x".data] :=
  extraction_deterministic _ _ rfl

/-- Claim C1: on a valid report file (well-formed fixed metadata lines,
both markers each followed by a header line and four well-formed numeric
data rows, no stray marker text elsewhere), extraction returns the four
metadata fields (the values after the first `": "` of lines 2 to 5), the
comma-joined error-type descriptors of the marker lines in file order, and
two tables of exactly four rows whose numeric cell values are preserved
exactly. -/
theorem extract_valid_report
    (t l1 l2 l3 l4 : Str) (mid1 mid2 tail : List Str)
    (dmark dhead d1 d2 d3 d4 nmark nhead n1 n2 n3 n4 : Str)
    (lab1 lab2 lab3 lab4 v1 v2 v3 v4 dk dp nk np : Str)
    (hb hc1 hc2 nb nc1 nc2 : Str)
    (a1 x1 y1 a2 x2 y2 a3 x3 y3 a4 x4 y4 : Str)
    (b1 u1 w1 b2 u2 w2 b3 u3 w3 b4 u4 w4 : Str)
    (q1 p1 q2 p2 q3 p3 q4 p4 s1 o1 s2 o2 s3 o3 s4 o4 : ℚ)
    (hmeta : pySplit metaSep l1 = [lab1, v1] ∧ pySplit metaSep l2 = [lab2, v2] ∧
      pySplit metaSep l3 = [lab3, v3] ∧ pySplit metaSep l4 = [lab4, v4] ∧
      pyStrip v1 = v1 ∧ pyStrip v2 = v2 ∧ pyStrip v3 = v3 ∧ pyStrip v4 = v4)
    (hmark : pyContains dmark dirMarker = true ∧
      pyContains nmark nevaMarker = true ∧
      parsePair dmark = some (dk, dp) ∧ parsePair nmark = some (nk, np))
    (hnodir : ∀ l ∈ t :: l1 :: l2 :: l3 :: l4 :: mid1,
      pyContains l dirMarker = false)
    (hnoneva : ∀ l ∈ (t :: l1 :: l2 :: l3 :: l4 :: mid1) ++
      dmark :: dhead :: d1 :: d2 :: d3 :: d4 :: mid2,
      pyContains l nevaMarker = false)
    (hnoerr : ∀ l ∈ t :: l1 :: l2 :: l3 :: l4 ::
      (mid1 ++ dhead :: d1 :: d2 :: d3 :: d4 ::
        (mid2 ++ nhead :: n1 :: n2 :: n3 :: n4 :: tail)),
      pyContains l errMarker = false)
    (hdne : dhead ≠ [] ∧ d1 ≠ [] ∧ d2 ≠ [] ∧ d3 ≠ [] ∧ d4 ≠ [])
    (hdsplit : pySplit commaSep dhead = [hb, hc1, hc2] ∧
      pySplit commaSep d1 = [a1, x1, y1] ∧ pySplit commaSep d2 = [a2, x2, y2] ∧
      pySplit commaSep d3 = [a3, x3, y3] ∧ pySplit commaSep d4 = [a4, x4, y4])
    (hdlab : parseNum? a1 = none ∧ parseNum? a2 = none ∧ parseNum? a3 = none ∧
      parseNum? a4 = none ∧ a1 ≠ [] ∧ a2 ≠ [] ∧ a3 ≠ [] ∧ a4 ≠ [])
    (hdnum : parseNum? x1 = some q1 ∧ parseNum? y1 = some p1 ∧
      parseNum? x2 = some q2 ∧ parseNum? y2 = some p2 ∧
      parseNum? x3 = some q3 ∧ parseNum? y3 = some p3 ∧
      parseNum? x4 = some q4 ∧ parseNum? y4 = some p4)
    (hnne : nhead ≠ [] ∧ n1 ≠ [] ∧ n2 ≠ [] ∧ n3 ≠ [] ∧ n4 ≠ [])
    (hnsplit : pySplit commaSep nhead = [nb, nc1, nc2] ∧
      pySplit commaSep n1 = [b1, u1, w1] ∧ pySplit commaSep n2 = [b2, u2, w2] ∧
      pySplit commaSep n3 = [b3, u3, w3] ∧ pySplit commaSep n4 = [b4, u4, w4])
    (hnlab : parseNum? b1 = none ∧ parseNum? b2 = none ∧ parseNum? b3 = none ∧
      parseNum? b4 = none ∧ b1 ≠ [] ∧ b2 ≠ [] ∧ b3 ≠ [] ∧ b4 ≠ [])
    (hnnum : parseNum? u1 = some s1 ∧ parseNum? w1 = some o1 ∧
      parseNum? u2 = some s2 ∧ parseNum? w2 = some o2 ∧
      parseNum? u3 = some s3 ∧ parseNum? w3 = some o3 ∧
      parseNum? u4 = some s4 ∧ parseNum? w4 = some o4) :
    extract (reportShape t l1 l2 l3 l4 mid1 dmark dhead d1 d2 d3 d4 mid2
        nmark nhead n1 n2 n3 n4 tail)
      = .ok (⟨v1, v2, v3, v4,
          dk ++ " (".data ++ dp ++ ")".data ++ ", ".data ++
            nk ++ " (".data ++ np ++ ")".data⟩,
        ⟨[hb, hc1, hc2],
          [[.str a1, .num q1, .num p1], [.str a2, .num q2, .num p2],
           [.str a3, .num q3, .num p3], [.str a4, .num q4, .num p4]]⟩,
        ⟨[nb, nc1, nc2],
          [[.str b1, .num s1, .num o1], [.str b2, .num s2, .num o2],
           [.str b3, .num s3, .num o3], [.str b4, .num s4, .num o4]]⟩) := by
  obtain ⟨hm1, hm2, hm3, hm4, hstrip1, hstrip2, hstrip3, hstrip4⟩ := hmeta
  obtain ⟨hdm, hnm, hpd, hpn⟩ := hmark
  simp only [reportShape]
  have hcontent :
      (t :: l1 :: l2 :: l3 :: l4 ::
        (mid1 ++ dmark :: dhead :: d1 :: d2 :: d3 :: d4 ::
          (mid2 ++ nmark :: nhead :: n1 :: n2 :: n3 :: n4 :: tail)))
      = (t :: l1 :: l2 :: l3 :: l4 :: mid1) ++
          dmark :: dhead :: d1 :: d2 :: d3 :: d4 ::
            (mid2 ++ nmark :: nhead :: n1 :: n2 :: n3 :: n4 :: tail) := by
    simp
  have hcontent2 :
      (t :: l1 :: l2 :: l3 :: l4 ::
        (mid1 ++ dmark :: dhead :: d1 :: d2 :: d3 :: d4 ::
          (mid2 ++ nmark :: nhead :: n1 :: n2 :: n3 :: n4 :: tail)))
      = ((t :: l1 :: l2 :: l3 :: l4 :: mid1) ++
          dmark :: dhead :: d1 :: d2 :: d3 :: d4 :: mid2) ++
            nmark :: nhead :: n1 :: n2 :: n3 :: n4 :: tail := by
    simp
  have hldir :
      locate_marker
        (t :: l1 :: l2 :: l3 :: l4 ::
          (mid1 ++ dmark :: dhead :: d1 :: d2 :: d3 :: d4 ::
            (mid2 ++ nmark :: nhead :: n1 :: n2 :: n3 :: n4 :: tail)))
        dirMarker
      = .ok (t :: l1 :: l2 :: l3 :: l4 :: mid1).length := by
    rw [hcontent]
    simpa using locate_append_ok _ hnodir (locate_cons_pos _ hdm)
  have hlneva :
      locate_marker
        (t :: l1 :: l2 :: l3 :: l4 ::
          (mid1 ++ dmark :: dhead :: d1 :: d2 :: d3 :: d4 ::
            (mid2 ++ nmark :: nhead :: n1 :: n2 :: n3 :: n4 :: tail)))
        nevaMarker
      = .ok ((t :: l1 :: l2 :: l3 :: l4 :: mid1) ++
          dmark :: dhead :: d1 :: d2 :: d3 :: d4 :: mid2).length := by
    rw [hcontent2]
    simpa using locate_append_ok _ hnoneva (locate_cons_pos _ hnm)
  have hdrop1 :
      (t :: l1 :: l2 :: l3 :: l4 ::
        (mid1 ++ dmark :: dhead :: d1 :: d2 :: d3 :: d4 ::
          (mid2 ++ nmark :: nhead :: n1 :: n2 :: n3 :: n4 :: tail))).drop
        ((t :: l1 :: l2 :: l3 :: l4 :: mid1).length + 1)
      = dhead :: d1 :: d2 :: d3 :: d4 ::
          (mid2 ++ nmark :: nhead :: n1 :: n2 :: n3 :: n4 :: tail) := by
    rw [hcontent, drop_length_add]
    rfl
  have hdrop2 :
      (t :: l1 :: l2 :: l3 :: l4 ::
        (mid1 ++ dmark :: dhead :: d1 :: d2 :: d3 :: d4 ::
          (mid2 ++ nmark :: nhead :: n1 :: n2 :: n3 :: n4 :: tail))).drop
        (((t :: l1 :: l2 :: l3 :: l4 :: mid1) ++
          dmark :: dhead :: d1 :: d2 :: d3 :: d4 :: mid2).length + 1)
      = nhead :: n1 :: n2 :: n3 :: n4 :: tail := by
    rw [hcontent2, drop_length_add]
    rfl
  have hread1 :
      read_csv
        (t :: l1 :: l2 :: l3 :: l4 ::
          (mid1 ++ dmark :: dhead :: d1 :: d2 :: d3 :: d4 ::
            (mid2 ++ nmark :: nhead :: n1 :: n2 :: n3 :: n4 :: tail)))
        ((t :: l1 :: l2 :: l3 :: l4 :: mid1).length + 1) 4
      = .ok ⟨[hb, hc1, hc2],
          [[.str a1, .num q1, .num p1], [.str a2, .num q2, .num p2],
           [.str a3, .num q3, .num p3], [.str a4, .num q4, .num p4]]⟩ := by
    apply read_csv_four_rows
    exacts [hdrop1, hdne, hdsplit, hdlab, hdnum]
  have hread2 :
      read_csv
        (t :: l1 :: l2 :: l3 :: l4 ::
          (mid1 ++ dmark :: dhead :: d1 :: d2 :: d3 :: d4 ::
            (mid2 ++ nmark :: nhead :: n1 :: n2 :: n3 :: n4 :: tail)))
        (((t :: l1 :: l2 :: l3 :: l4 :: mid1) ++
          dmark :: dhead :: d1 :: d2 :: d3 :: d4 :: mid2).length + 1) 4
      = .ok ⟨[nb, nc1, nc2],
          [[.str b1, .num s1, .num o1], [.str b2, .num s2, .num o2],
           [.str b3, .num s3, .num o3], [.str b4, .num s4, .num o4]]⟩ := by
    apply read_csv_four_rows
    exacts [hdrop2, hnne, hnsplit, hnlab, hnnum]
  have hmetadata :=
    extract_metadata_shape t l1 l2 l3 l4
      (mid1 ++ dmark :: dhead :: d1 :: d2 :: d3 :: d4 ::
        (mid2 ++ nmark :: nhead :: n1 :: n2 :: n3 :: n4 :: tail))
      (show (pySplit metaSep l1)[1]? = some v1 by rw [hm1]; rfl)
      (show (pySplit metaSep l2)[1]? = some v2 by rw [hm2]; rfl)
      (show (pySplit metaSep l3)[1]? = some v3 by rw [hm3]; rfl)
      (show (pySplit metaSep l4)[1]? = some v4 by rw [hm4]; rfl)
  have herr :
      error_types_of
        (t :: l1 :: l2 :: l3 :: l4 ::
          (mid1 ++ dmark :: dhead :: d1 :: d2 :: d3 :: d4 ::
            (mid2 ++ nmark :: nhead :: n1 :: n2 :: n3 :: n4 :: tail)))
      = [descriptor (dk, dp), descriptor (nk, np)] := by
    unfold error_types_of
    have pt := parsePair_eq_none (hnoerr t (by simp))
    have pl1 := parsePair_eq_none (hnoerr l1 (by simp))
    have pl2 := parsePair_eq_none (hnoerr l2 (by simp))
    have pl3 := parsePair_eq_none (hnoerr l3 (by simp))
    have pl4 := parsePair_eq_none (hnoerr l4 (by simp))
    have ph := parsePair_eq_none (hnoerr dhead (by simp))
    have pd1 := parsePair_eq_none (hnoerr d1 (by simp))
    have pd2 := parsePair_eq_none (hnoerr d2 (by simp))
    have pd3 := parsePair_eq_none (hnoerr d3 (by simp))
    have pd4 := parsePair_eq_none (hnoerr d4 (by simp))
    have pnh := parsePair_eq_none (hnoerr nhead (by simp))
    have pn1 := parsePair_eq_none (hnoerr n1 (by simp))
    have pn2 := parsePair_eq_none (hnoerr n2 (by simp))
    have pn3 := parsePair_eq_none (hnoerr n3 (by simp))
    have pn4 := parsePair_eq_none (hnoerr n4 (by simp))
    have pm1 : mid1.filterMap parsePair = [] :=
      filterMap_parsePair_nil fun l hl => hnoerr l (by simp [hl])
    have pm2 : mid2.filterMap parsePair = [] :=
      filterMap_parsePair_nil fun l hl => hnoerr l (by simp [hl])
    have ptl : tail.filterMap parsePair = [] :=
      filterMap_parsePair_nil fun l hl => hnoerr l (by simp [hl])
    simp [List.filterMap_cons, List.filterMap_append, pt, pl1, pl2, pl3, pl4,
      ph, pd1, pd2, pd3, pd4, pnh, pn1, pn2, pn3, pn4, pm1, pm2, ptl,
      hpd, hpn]
  unfold extract load_and_process_data
  rw [hldir]
  show ((locate_marker _ nevaMarker >>= _) >>= _) = _
  rw [hlneva]
  show ((read_csv _ ((t :: l1 :: l2 :: l3 :: l4 :: mid1).length + 1) 4
    >>= _) >>= _) = _
  rw [hread1]
  show ((read_csv _ (((t :: l1 :: l2 :: l3 :: l4 :: mid1) ++
    dmark :: dhead :: d1 :: d2 :: d3 :: d4 :: mid2).length + 1) 4
    >>= _) >>= _) = _
  rw [hread2]
  show (extract_metadata _ >>= _) = _
  rw [hmetadata, herr, hstrip1, hstrip2, hstrip3, hstrip4]
  simp [pyJoin, descriptor, joinSep, List.append_assoc]

/-- Witness for C1: the end-to-end scenario of the design document, with
`HIRESv1,HIRESv3` instruments, period `2020-2023`, model `MED`, region
`Global`, a `Direction (d0)` table and a `NEVA (d1)` table of four rows
each. -/
theorem extract_valid_report_witness :
    extract (reportShape ( "Title".data)
        ( "Instruments: HIRESv1,HIRESv3".data) ( "Période: 2020-2023".data)
        ( "Modèle: MED".data) ( "Région: Global".data) []
        ( "Error Distribution: Direction (d0)".data)
        ( "bucket,HIRESv1_MED_d0,HIRESv3_MED_d1".data)
        ( "0-15,12.3,8.7".data) ( "15-30,10.0,9.1".data)
        ( "30-45,7.5,6.2".data) ( "45-90,5.0,4.4".data) []
        ( "Error Distribution: NEVA (d1)".data)
        ( "bucket,HIRESv1_MED_d0,HIRESv3_MED_d1".data)
        ( "0-33,40.5,38.2".data) ( "33-66,30.1,31.4".data)
        ( "66-90,20.0,19.9".data) ( "90-100,9.4,10.5".data) [])
      = .ok (⟨ "HIRESv1,HIRESv3".data, "2020-2023".data, "MED".data,
          "Global".data, "Direction (d0), NEVA (d1)".data⟩,
        ⟨[ "bucket".data, "HIRESv1_MED_d0".data, "HIRESv3_MED_d1".data],
          [[.str ( "0-15".data), .num (mkRat 123 10), .num (mkRat 87 10)],
           [.str ( "15-30".data), .num (mkRat 100 10), .num (mkRat 91 10)],
           [.str ( "30-45".data), .num (mkRat 75 10), .num (mkRat 62 10)],
           [.str ( "45-90".data), .num (mkRat 50 10), .num (mkRat 44 10)]]⟩,
        ⟨[ "bucket".data, "HIRESv1_MED_d0".data, "HIRESv3_MED_d1".data],
          [[.str ( "0-33".data), .num (mkRat 405 10), .num (mkRat 382 10)],
           [.str ( "33-66".data), .num (mkRat 301 10), .num (mkRat 314 10)],
           [.str ( "66-90".data), .num (mkRat 200 10), .num (mkRat 199 10)],
           [.str ( "90-100".data), .num (mkRat 94 10),
             .num (mkRat 105 10)]]⟩) :=
  extract_valid_report
    ( "Title".data) ( "Instruments: HIRESv1,HIRESv3".data)
    ( "Période: 2020-2023".data) ( "Modèle: MED".data)
    ( "Région: Global".data) [] [] []
    ( "Error Distribution: Direction (d0)".data)
    ( "bucket,HIRESv1_MED_d0,HIRESv3_MED_d1".data)
    ( "0-15,12.3,8.7".data) ( "15-30,10.0,9.1".data)
    ( "30-45,7.5,6.2".data) ( "45-90,5.0,4.4".data)
    ( "Error Distribution: NEVA (d1)".data)
    ( "bucket,HIRESv1_MED_d0,HIRESv3_MED_d1".data)
    ( "0-33,40.5,38.2".data) ( "33-66,30.1,31.4".data)
    ( "66-90,20.0,19.9".data) ( "90-100,9.4,10.5".data)
    ( "Instruments".data) ( "Période".data) ( "Modèle".data) ( "Région".data)
    ( "HIRESv1,HIRESv3".data) ( "2020-2023".data) ( "MED".data)
    ( "Global".data)
    ( "Direction".data) ( "d0".data) ( "NEVA".data) ( "d1".data)
    ( "bucket".data) ( "HIRESv1_MED_d0".data) ( "HIRESv3_MED_d1".data)
    ( "bucket".data) ( "HIRESv1_MED_d0".data) ( "HIRESv3_MED_d1".data)
    ( "0-15".data) ( "12.3".data) ( "8.7".data)
    ( "15-30".data) ( "10.0".data) ( "9.1".data)
    ( "30-45".data) ( "7.5".data) ( "6.2".data)
    ( "45-90".data) ( "5.0".data) ( "4.4".data)
    ( "0-33".data) ( "40.5".data) ( "38.2".data)
    ( "33-66".data) ( "30.1".data) ( "31.4".data)
    ( "66-90".data) ( "20.0".data) ( "19.9".data)
    ( "90-100".data) ( "9.4".data) ( "10.5".data)
    (mkRat 123 10) (mkRat 87 10) (mkRat 100 10) (mkRat 91 10)
    (mkRat 75 10) (mkRat 62 10) (mkRat 50 10) (mkRat 44 10)
    (mkRat 405 10) (mkRat 382 10) (mkRat 301 10) (mkRat 314 10)
    (mkRat 200 10) (mkRat 199 10) (mkRat 94 10) (mkRat 105 10)
    (by decide) (by decide) (by decide) (by decide) (by decide) (by decide)
    (by decide) (by decide) (by decide) (by decide) (by decide) (by decide)
    (by decide)

/-- Claim C9: when lines 2 to 5 are well formed, metadata extraction
succeeds no matter what the rest of the file holds (no marker at all, or a
marker followed by a malformed table), and with no marker line anywhere
the joined error-type string is empty. -/
theorem metadata_independent_of_tables
    (t l1 l2 l3 l4 : Str) (rest : List Str)
    (lab1 lab2 lab3 lab4 v1 v2 v3 v4 : Str)
    (h1 : pySplit metaSep l1 = [lab1, v1])
    (h2 : pySplit metaSep l2 = [lab2, v2])
    (h3 : pySplit metaSep l3 = [lab3, v3])
    (h4 : pySplit metaSep l4 = [lab4, v4]) :
    (∃ m, extract_metadata (t :: l1 :: l2 :: l3 :: l4 :: rest) = .ok m) ∧
    ((∀ l ∈ t :: l1 :: l2 :: l3 :: l4 :: rest,
        pyContains l errMarker = false) →
      extract_metadata (t :: l1 :: l2 :: l3 :: l4 :: rest)
        = .ok ⟨pyStrip v1, pyStrip v2, pyStrip v3, pyStrip v4, []⟩) := by
  have base := extract_metadata_shape t l1 l2 l3 l4 rest
    (show (pySplit metaSep l1)[1]? = some v1 by rw [h1]; rfl)
    (show (pySplit metaSep l2)[1]? = some v2 by rw [h2]; rfl)
    (show (pySplit metaSep l3)[1]? = some v3 by rw [h3]; rfl)
    (show (pySplit metaSep l4)[1]? = some v4 by rw [h4]; rfl)
  refine ⟨⟨_, base⟩, fun hall => ?_⟩
  rw [base]
  have hempty : error_types_of (t :: l1 :: l2 :: l3 :: l4 :: rest) = [] := by
    unfold error_types_of
    rw [filterMap_parsePair_nil hall]
    rfl
  rw [hempty]
  rfl

/-- Witness for C9: a file whose sixth line is a direction marker followed
by nothing (a malformed table region): metadata extraction still
succeeds. -/
theorem metadata_independent_of_tables_witness :
    (∃ m, extract_metadata
        ( "Title".data :: "Instruments: A".data :: "Période: P".data ::
          "Modèle: M".data :: "Région: R".data ::
          [ "Error Distribution: Direction (d0)".data])
      = .ok m) ∧
    ((∀ l ∈ "Title".data :: "Instruments: A".data :: "Période: P".data ::
        "Modèle: M".data :: "Région: R".data ::
        [ "Error Distribution: Direction (d0)".data],
        pyContains l errMarker = false) →
      extract_metadata
        ( "Title".data :: "Instruments: A".data :: "Période: P".data ::
          "Modèle: M".data :: "Région: R".data ::
          [ "Error Distribution: Direction (d0)".data])
      = .ok ⟨pyStrip ( "A".data), pyStrip ( "P".data), pyStrip ( "M".data),
          pyStrip ( "R".data), []⟩) :=
  metadata_independent_of_tables ( "Title".data) ( "Instruments: A".data)
    ( "Période: P".data) ( "Modèle: M".data) ( "Région: R".data)
    [ "Error Distribution: Direction (d0)".data]
    ( "Instruments".data) ( "Période".data) ( "Modèle".data) ( "Région".data)
    ( "A".data) ( "P".data) ( "M".data) ( "R".data)
    (by decide) (by decide) (by decide) (by decide)

/-- Claim C10: when the value of a fixed metadata line itself contains the
`": "` separator, extraction keeps only the segment between the first and
the second occurrence (the second element of the Python split), silently
truncating the remainder of the value. -/
theorem metadata_value_truncated
    (t l1 l2 l3 l4 : Str) (rest : List Str)
    (lab1 lab2 lab3 lab4 v1 v2 v3 v4 : Str) (e1 e2 e3 e4 : List Str)
    (h1 : pySplit metaSep l1 = lab1 :: v1 :: e1)
    (h2 : pySplit metaSep l2 = lab2 :: v2 :: e2)
    (h3 : pySplit metaSep l3 = lab3 :: v3 :: e3)
    (h4 : pySplit metaSep l4 = lab4 :: v4 :: e4) :
    ∃ m, extract_metadata (t :: l1 :: l2 :: l3 :: l4 :: rest) = .ok m ∧
      m.instruments = pyStrip v1 ∧ m.periode = pyStrip v2 ∧
      m.model = pyStrip v3 ∧ m.region = pyStrip v4 := by
  have base := extract_metadata_shape t l1 l2 l3 l4 rest
    (show (pySplit metaSep l1)[1]? = some v1 by rw [h1]; simp)
    (show (pySplit metaSep l2)[1]? = some v2 by rw [h2]; simp)
    (show (pySplit metaSep l3)[1]? = some v3 by rw [h3]; simp)
    (show (pySplit metaSep l4)[1]? = some v4 by rw [h4]; simp)
  exact ⟨_, base, rfl, rfl, rfl, rfl⟩

/-- Witness for C10: the line `Instruments: a: b` yields the instruments
field `a`, not `a: b` (and likewise for the other three fields). -/
theorem metadata_value_truncated_witness :
    ∃ m, extract_metadata
        ( "Title".data :: "Instruments: a: b".data :: "Période: p: q".data ::
          "Modèle: m: n".data :: "Région: r: s".data :: [])
      = .ok m ∧
      m.instruments = pyStrip ( "a".data) ∧ m.periode = pyStrip ( "p".data) ∧
      m.model = pyStrip ( "m".data) ∧ m.region = pyStrip ( "r".data) :=
  metadata_value_truncated ( "Title".data) ( "Instruments: a: b".data)
    ( "Période: p: q".data) ( "Modèle: m: n".data) ( "Région: r: s".data) []
    ( "Instruments".data) ( "Période".data) ( "Modèle".data) ( "Région".data)
    ( "a".data) ( "p".data) ( "m".data) ( "r".data)
    [ "b".data] [ "q".data] [ "n".data] [ "s".data]
    (by decide) (by decide) (by decide) (by decide)

/-- Claim C2 (amended): when fewer than four data rows remain after a
marker and its header line, `read_csv` does not fail: it returns a table
with just the remaining rows.  Here the direction marker sits near the end
of the file with only two rows after its header, and the whole extraction
succeeds with a two-row direction table. -/
theorem short_table_returned
    (t l1 l2 l3 l4 nmark nhead n1 n2 n3 n4 dmark dhead r1 r2 : Str)
    (nb nc1 nc2 b1 u1 w1 b2 u2 w2 b3 u3 w3 b4 u4 w4 : Str)
    (hb hc1 hc2 a1 x1 y1 a2 x2 y2 : Str)
    (s1 o1 s2 o2 s3 o3 s4 o4 q1 p1 q2 p2 : ℚ)
    (hmark : pyContains dmark dirMarker = true ∧
      pyContains nmark nevaMarker = true)
    (hnodir : ∀ l ∈ [t, l1, l2, l3, l4, nmark, nhead, n1, n2, n3, n4],
      pyContains l dirMarker = false)
    (hnoneva : ∀ l ∈ [t, l1, l2, l3, l4], pyContains l nevaMarker = false)
    (hnne : nhead ≠ [] ∧ n1 ≠ [] ∧ n2 ≠ [] ∧ n3 ≠ [] ∧ n4 ≠ [])
    (hnsplit : pySplit commaSep nhead = [nb, nc1, nc2] ∧
      pySplit commaSep n1 = [b1, u1, w1] ∧ pySplit commaSep n2 = [b2, u2, w2] ∧
      pySplit commaSep n3 = [b3, u3, w3] ∧ pySplit commaSep n4 = [b4, u4, w4])
    (hnlab : parseNum? b1 = none ∧ parseNum? b2 = none ∧ parseNum? b3 = none ∧
      parseNum? b4 = none ∧ b1 ≠ [] ∧ b2 ≠ [] ∧ b3 ≠ [] ∧ b4 ≠ [])
    (hnnum : parseNum? u1 = some s1 ∧ parseNum? w1 = some o1 ∧
      parseNum? u2 = some s2 ∧ parseNum? w2 = some o2 ∧
      parseNum? u3 = some s3 ∧ parseNum? w3 = some o3 ∧
      parseNum? u4 = some s4 ∧ parseNum? w4 = some o4)
    (hdne : dhead ≠ [] ∧ r1 ≠ [] ∧ r2 ≠ [])
    (hdsplit : pySplit commaSep dhead = [hb, hc1, hc2] ∧
      pySplit commaSep r1 = [a1, x1, y1] ∧ pySplit commaSep r2 = [a2, x2, y2])
    (hdlab : parseNum? a1 = none ∧ parseNum? a2 = none ∧ a1 ≠ [] ∧ a2 ≠ [])
    (hdnum : parseNum? x1 = some q1 ∧ parseNum? y1 = some p1 ∧
      parseNum? x2 = some q2 ∧ parseNum? y2 = some p2) :
    load_and_process_data
      [t, l1, l2, l3, l4, nmark, nhead, n1, n2, n3, n4, dmark, dhead, r1, r2]
    = .ok (⟨[hb, hc1, hc2],
        [[.str a1, .num q1, .num p1], [.str a2, .num q2, .num p2]]⟩,
      ⟨[nb, nc1, nc2],
        [[.str b1, .num s1, .num o1], [.str b2, .num s2, .num o2],
         [.str b3, .num s3, .num o3], [.str b4, .num s4, .num o4]]⟩) := by
  have hshape1 :
      ([t, l1, l2, l3, l4, nmark, nhead, n1, n2, n3, n4, dmark, dhead, r1, r2]
        : List Str)
      = [t, l1, l2, l3, l4, nmark, nhead, n1, n2, n3, n4] ++
          dmark :: [dhead, r1, r2] := by simp
  have hshape2 :
      ([t, l1, l2, l3, l4, nmark, nhead, n1, n2, n3, n4, dmark, dhead, r1, r2]
        : List Str)
      = [t, l1, l2, l3, l4] ++
          nmark :: [nhead, n1, n2, n3, n4, dmark, dhead, r1, r2] := by simp
  have hldir :
      locate_marker
        [t, l1, l2, l3, l4, nmark, nhead, n1, n2, n3, n4, dmark, dhead, r1, r2]
        dirMarker = .ok 11 := by
    rw [hshape1]
    simpa using locate_append_ok _ hnodir (locate_cons_pos _ hmark.1)
  have hlneva :
      locate_marker
        [t, l1, l2, l3, l4, nmark, nhead, n1, n2, n3, n4, dmark, dhead, r1, r2]
        nevaMarker = .ok 5 := by
    rw [hshape2]
    simpa using locate_append_ok _ hnoneva (locate_cons_pos _ hmark.2)
  have hread1 :
      read_csv
        [t, l1, l2, l3, l4, nmark, nhead, n1, n2, n3, n4, dmark, dhead, r1, r2]
        (11 + 1) 4
      = .ok ⟨[hb, hc1, hc2],
          [[.str a1, .num q1, .num p1], [.str a2, .num q2, .num p2]]⟩ := by
    apply read_csv_two_rows
    exacts [rfl, hdne, hdsplit, hdlab, hdnum]
  have hread2 :
      read_csv
        [t, l1, l2, l3, l4, nmark, nhead, n1, n2, n3, n4, dmark, dhead, r1, r2]
        (5 + 1) 4
      = .ok ⟨[nb, nc1, nc2],
          [[.str b1, .num s1, .num o1], [.str b2, .num s2, .num o2],
           [.str b3, .num s3, .num o3], [.str b4, .num s4, .num o4]]⟩ := by
    apply read_csv_four_rows
    exacts [rfl, hnne, hnsplit, hnlab, hnnum]
  unfold load_and_process_data
  rw [hldir]
  show (locate_marker _ nevaMarker >>= _) = _
  rw [hlneva]
  show (read_csv _ (11 + 1) 4 >>= _) = _
  rw [hread1]
  show (read_csv _ (5 + 1) 4 >>= _) = _
  rw [hread2]
  rfl

/-- Witness for C2 (amended): a concrete file whose direction table has
only two rows left before the end of the file. -/
theorem short_table_returned_witness :
    load_and_process_data
      [ "Title".data, "Instruments: A".data, "Période: P".data,
        "Modèle: M".data, "Région: R".data,
        "Error Distribution: NEVA (d1)".data, "bucket,c1,c2".data,
        "0-33,40.5,38.2".data, "33-66,30.1,31.4".data,
        "66-90,20.0,19.9".data, "90-100,9.4,10.5".data,
        "Error Distribution: Direction (d0)".data, "bucket,c1,c2".data,
        "0-15,12.3,8.7".data, "15-30,10.0,9.1".data]
    = .ok (⟨[ "bucket".data, "c1".data, "c2".data],
        [[.str ( "0-15".data), .num (mkRat 123 10), .num (mkRat 87 10)],
         [.str ( "15-30".data), .num (mkRat 100 10), .num (mkRat 91 10)]]⟩,
      ⟨[ "bucket".data, "c1".data, "c2".data],
        [[.str ( "0-33".data), .num (mkRat 405 10), .num (mkRat 382 10)],
         [.str ( "33-66".data), .num (mkRat 301 10), .num (mkRat 314 10)],
         [.str ( "66-90".data), .num (mkRat 200 10), .num (mkRat 199 10)],
         [.str ( "90-100".data), .num (mkRat 94 10),
           .num (mkRat 105 10)]]⟩) :=
  short_table_returned ( "Title".data) ( "Instruments: A".data)
    ( "Période: P".data) ( "Modèle: M".data) ( "Région: R".data)
    ( "Error Distribution: NEVA (d1)".data) ( "bucket,c1,c2".data)
    ( "0-33,40.5,38.2".data) ( "33-66,30.1,31.4".data)
    ( "66-90,20.0,19.9".data) ( "90-100,9.4,10.5".data)
    ( "Error Distribution: Direction (d0)".data) ( "bucket,c1,c2".data)
    ( "0-15,12.3,8.7".data) ( "15-30,10.0,9.1".data)
    ( "bucket".data) ( "c1".data) ( "c2".data)
    ( "0-33".data) ( "40.5".data) ( "38.2".data)
    ( "33-66".data) ( "30.1".data) ( "31.4".data)
    ( "66-90".data) ( "20.0".data) ( "19.9".data)
    ( "90-100".data) ( "9.4".data) ( "10.5".data)
    ( "bucket".data) ( "c1".data) ( "c2".data)
    ( "0-15".data) ( "12.3".data) ( "8.7".data)
    ( "15-30".data) ( "10.0".data) ( "9.1".data)
    (mkRat 405 10) (mkRat 382 10) (mkRat 301 10) (mkRat 314 10)
    (mkRat 200 10) (mkRat 199 10) (mkRat 94 10) (mkRat 105 10)
    (mkRat 123 10) (mkRat 87 10) (mkRat 100 10) (mkRat 91 10)
    (by decide) (by decide) (by decide) (by decide) (by decide) (by decide)
    (by decide) (by decide) (by decide) (by decide) (by decide)

/-- Counterexample for C2 as stated: on this file the direction marker is
followed by a header and only two data rows, yet table extraction does not
fail with any error: it returns a two-row table. -/
theorem short_table_no_error_cex :
    load_and_process_data
      [ "Title".data, "Instruments: A".data, "Période: P".data,
        "Modèle: M".data, "Région: R".data,
        "Error Distribution: NEVA (d1)".data, "bucket,c1,c2".data,
        "0-33,40.5,38.2".data, "33-66,30.1,31.4".data,
        "66-90,20.0,19.9".data, "90-100,9.4,10.5".data,
        "Error Distribution: Direction (d0)".data, "bucket,c1,c2".data,
        "0-15,12.3,8.7".data, "15-30,10.0,9.1".data]
    = .ok (⟨[ "bucket".data, "c1".data, "c2".data],
        [[.str ( "0-15".data), .num (mkRat 123 10), .num (mkRat 87 10)],
         [.str ( "15-30".data), .num (mkRat 100 10), .num (mkRat 91 10)]]⟩,
      ⟨[ "bucket".data, "c1".data, "c2".data],
        [[.str ( "0-33".data), .num (mkRat 405 10), .num (mkRat 382 10)],
         [.str ( "33-66".data), .num (mkRat 301 10), .num (mkRat 314 10)],
         [.str ( "66-90".data), .num (mkRat 200 10), .num (mkRat 199 10)],
         [.str ( "90-100".data), .num (mkRat 94 10),
           .num (mkRat 105 10)]]⟩) ∧
    load_and_process_data
        [ "Title".data, "Instruments: A".data, "Période: P".data,
          "Modèle: M".data, "Région: R".data,
          "Error Distribution: NEVA (d1)".data, "bucket,c1,c2".data,
          "0-33,40.5,38.2".data, "33-66,30.1,31.4".data,
          "66-90,20.0,19.9".data, "90-100,9.4,10.5".data,
          "Error Distribution: Direction (d0)".data, "bucket,c1,c2".data,
          "0-15,12.3,8.7".data, "15-30,10.0,9.1".data]
      ≠ .error .malformedTable := by
  constructor
  · decide
  · decide

/-- Claim C3 (amended): a non-numeric cell in a data row does not make
table extraction fail: the row is returned with the offending value kept
as text, and pandas dtype inference turns every other cell of that column
into text as well.  Extraction succeeds end to end. -/
theorem nonnumeric_cell_returned
    (t l1 l2 l3 l4 dmark dhead d1 d2 d3 d4 nmark nhead n1 n2 n3 n4 : Str)
    (hb hc1 hc2 a1 x1 y1 a2 x2 y2 a3 x3 y3 a4 x4 y4 : Str)
    (nb nc1 nc2 b1 u1 w1 b2 u2 w2 b3 u3 w3 b4 u4 w4 : Str)
    (p1 p2 p3 p4 s1 o1 s2 o2 s3 o3 s4 o4 : ℚ)
    (hmark : pyContains dmark dirMarker = true ∧
      pyContains nmark nevaMarker = true)
    (hnodir : ∀ l ∈ [t, l1, l2, l3, l4], pyContains l dirMarker = false)
    (hnoneva : ∀ l ∈ [t, l1, l2, l3, l4, dmark, dhead, d1, d2, d3, d4],
      pyContains l nevaMarker = false)
    (hdne : dhead ≠ [] ∧ d1 ≠ [] ∧ d2 ≠ [] ∧ d3 ≠ [] ∧ d4 ≠ [])
    (hdsplit : pySplit commaSep dhead = [hb, hc1, hc2] ∧
      pySplit commaSep d1 = [a1, x1, y1] ∧ pySplit commaSep d2 = [a2, x2, y2] ∧
      pySplit commaSep d3 = [a3, x3, y3] ∧ pySplit commaSep d4 = [a4, x4, y4])
    (hdlab : parseNum? a1 = none ∧ parseNum? a2 = none ∧ parseNum? a3 = none ∧
      parseNum? a4 = none ∧ a1 ≠ [] ∧ a2 ≠ [] ∧ a3 ≠ [] ∧ a4 ≠ [])
    (hbad : parseNum? x2 = none ∧ x1 ≠ [] ∧ x2 ≠ [] ∧ x3 ≠ [] ∧ x4 ≠ [])
    (hdy : parseNum? y1 = some p1 ∧ parseNum? y2 = some p2 ∧
      parseNum? y3 = some p3 ∧ parseNum? y4 = some p4)
    (hnne : nhead ≠ [] ∧ n1 ≠ [] ∧ n2 ≠ [] ∧ n3 ≠ [] ∧ n4 ≠ [])
    (hnsplit : pySplit commaSep nhead = [nb, nc1, nc2] ∧
      pySplit commaSep n1 = [b1, u1, w1] ∧ pySplit commaSep n2 = [b2, u2, w2] ∧
      pySplit commaSep n3 = [b3, u3, w3] ∧ pySplit commaSep n4 = [b4, u4, w4])
    (hnlab : parseNum? b1 = none ∧ parseNum? b2 = none ∧ parseNum? b3 = none ∧
      parseNum? b4 = none ∧ b1 ≠ [] ∧ b2 ≠ [] ∧ b3 ≠ [] ∧ b4 ≠ [])
    (hnnum : parseNum? u1 = some s1 ∧ parseNum? w1 = some o1 ∧
      parseNum? u2 = some s2 ∧ parseNum? w2 = some o2 ∧
      parseNum? u3 = some s3 ∧ parseNum? w3 = some o3 ∧
      parseNum? u4 = some s4 ∧ parseNum? w4 = some o4) :
    load_and_process_data
      [t, l1, l2, l3, l4, dmark, dhead, d1, d2, d3, d4, nmark, nhead,
        n1, n2, n3, n4]
    = .ok (⟨[hb, hc1, hc2],
        [[.str a1, .str x1, .num p1], [.str a2, .str x2, .num p2],
         [.str a3, .str x3, .num p3], [.str a4, .str x4, .num p4]]⟩,
      ⟨[nb, nc1, nc2],
        [[.str b1, .num s1, .num o1], [.str b2, .num s2, .num o2],
         [.str b3, .num s3, .num o3], [.str b4, .num s4, .num o4]]⟩) := by
  have hshape1 :
      ([t, l1, l2, l3, l4, dmark, dhead, d1, d2, d3, d4, nmark, nhead,
        n1, n2, n3, n4] : List Str)
      = [t, l1, l2, l3, l4] ++
          dmark :: [dhead, d1, d2, d3, d4, nmark, nhead, n1, n2, n3, n4] := by
    simp
  have hshape2 :
      ([t, l1, l2, l3, l4, dmark, dhead, d1, d2, d3, d4, nmark, nhead,
        n1, n2, n3, n4] : List Str)
      = [t, l1, l2, l3, l4, dmark, dhead, d1, d2, d3, d4] ++
          nmark :: [nhead, n1, n2, n3, n4] := by
    simp
  have hldir :
      locate_marker
        [t, l1, l2, l3, l4, dmark, dhead, d1, d2, d3, d4, nmark, nhead,
          n1, n2, n3, n4] dirMarker = .ok 5 := by
    rw [hshape1]
    simpa using locate_append_ok _ hnodir (locate_cons_pos _ hmark.1)
  have hlneva :
      locate_marker
        [t, l1, l2, l3, l4, dmark, dhead, d1, d2, d3, d4, nmark, nhead,
          n1, n2, n3, n4] nevaMarker = .ok 11 := by
    rw [hshape2]
    simpa using locate_append_ok _ hnoneva (locate_cons_pos _ hmark.2)
  have hread1 :
      read_csv
        [t, l1, l2, l3, l4, dmark, dhead, d1, d2, d3, d4, nmark, nhead,
          n1, n2, n3, n4] (5 + 1) 4
      = .ok ⟨[hb, hc1, hc2],
          [[.str a1, .str x1, .num p1], [.str a2, .str x2, .num p2],
           [.str a3, .str x3, .num p3], [.str a4, .str x4, .num p4]]⟩ := by
    apply read_csv_four_rows_text_col
    exacts [rfl, hdne, hdsplit, hdlab, hbad, hdy]
  have hread2 :
      read_csv
        [t, l1, l2, l3, l4, dmark, dhead, d1, d2, d3, d4, nmark, nhead,
          n1, n2, n3, n4] (11 + 1) 4
      = .ok ⟨[nb, nc1, nc2],
          [[.str b1, .num s1, .num o1], [.str b2, .num s2, .num o2],
           [.str b3, .num s3, .num o3], [.str b4, .num s4, .num o4]]⟩ := by
    apply read_csv_four_rows
    exacts [rfl, hnne, hnsplit, hnlab, hnnum]
  unfold load_and_process_data
  rw [hldir]
  show (locate_marker _ nevaMarker >>= _) = _
  rw [hlneva]
  show (read_csv _ (5 + 1) 4 >>= _) = _
  rw [hread1]
  show (read_csv _ (11 + 1) 4 >>= _) = _
  rw [hread2]
  rfl

/-- Witness for C3 (amended): the cell `abc` in the second direction row
is returned as text, and drags the rest of its column to text. -/
theorem nonnumeric_cell_returned_witness :
    load_and_process_data
      [ "Title".data, "Instruments: A".data, "Période: P".data,
        "Modèle: M".data, "Région: R".data,
        "Error Distribution: Direction (d0)".data, "bucket,c1,c2".data,
        "0-15,12.3,8.7".data, "15-30,abc,9.1".data,
        "30-45,7.5,6.2".data, "45-90,5.0,4.4".data,
        "Error Distribution: NEVA (d1)".data, "bucket,c1,c2".data,
        "0-33,40.5,38.2".data, "33-66,30.1,31.4".data,
        "66-90,20.0,19.9".data, "90-100,9.4,10.5".data]
    = .ok (⟨[ "bucket".data, "c1".data, "c2".data],
        [[.str ( "0-15".data), .str ( "12.3".data), .num (mkRat 87 10)],
         [.str ( "15-30".data), .str ( "abc".data), .num (mkRat 91 10)],
         [.str ( "30-45".data), .str ( "7.5".data), .num (mkRat 62 10)],
         [.str ( "45-90".data), .str ( "5.0".data), .num (mkRat 44 10)]]⟩,
      ⟨[ "bucket".data, "c1".data, "c2".data],
        [[.str ( "0-33".data), .num (mkRat 405 10), .num (mkRat 382 10)],
         [.str ( "33-66".data), .num (mkRat 301 10), .num (mkRat 314 10)],
         [.str ( "66-90".data), .num (mkRat 200 10), .num (mkRat 199 10)],
         [.str ( "90-100".data), .num (mkRat 94 10),
           .num (mkRat 105 10)]]⟩) :=
  nonnumeric_cell_returned ( "Title".data) ( "Instruments: A".data)
    ( "Période: P".data) ( "Modèle: M".data) ( "Région: R".data)
    ( "Error Distribution: Direction (d0)".data) ( "bucket,c1,c2".data)
    ( "0-15,12.3,8.7".data) ( "15-30,abc,9.1".data)
    ( "30-45,7.5,6.2".data) ( "45-90,5.0,4.4".data)
    ( "Error Distribution: NEVA (d1)".data) ( "bucket,c1,c2".data)
    ( "0-33,40.5,38.2".data) ( "33-66,30.1,31.4".data)
    ( "66-90,20.0,19.9".data) ( "90-100,9.4,10.5".data)
    ( "bucket".data) ( "c1".data) ( "c2".data)
    ( "0-15".data) ( "12.3".data) ( "8.7".data)
    ( "15-30".data) ( "abc".data) ( "9.1".data)
    ( "30-45".data) ( "7.5".data) ( "6.2".data)
    ( "45-90".data) ( "5.0".data) ( "4.4".data)
    ( "bucket".data) ( "c1".data) ( "c2".data)
    ( "0-33".data) ( "40.5".data) ( "38.2".data)
    ( "33-66".data) ( "30.1".data) ( "31.4".data)
    ( "66-90".data) ( "20.0".data) ( "19.9".data)
    ( "90-100".data) ( "9.4".data) ( "10.5".data)
    (mkRat 87 10) (mkRat 91 10) (mkRat 62 10) (mkRat 44 10)
    (mkRat 405 10) (mkRat 382 10) (mkRat 301 10) (mkRat 314 10)
    (mkRat 200 10) (mkRat 199 10) (mkRat 94 10) (mkRat 105 10)
    (by decide) (by decide) (by decide) (by decide) (by decide) (by decide)
    (by decide) (by decide) (by decide) (by decide) (by decide) (by decide)

/-- Counterexample for C3 as stated: on this file a direction data row
holds the non-numeric cell `abc`, yet table extraction does not fail with
any error: it returns the table, with `abc` among its cell values. -/
theorem nonnumeric_cell_no_error_cex :
    load_and_process_data
      [ "Title".data, "Instruments: A".data, "Période: P".data,
        "Modèle: M".data, "Région: R".data,
        "Error Distribution: Direction (d0)".data, "bucket,c1,c2".data,
        "0-15,12.3,8.7".data, "15-30,abc,9.1".data,
        "30-45,7.5,6.2".data, "45-90,5.0,4.4".data,
        "Error Distribution: NEVA (d1)".data, "bucket,c1,c2".data,
        "0-33,40.5,38.2".data, "33-66,30.1,31.4".data,
        "66-90,20.0,19.9".data, "90-100,9.4,10.5".data]
    = .ok (⟨[ "bucket".data, "c1".data, "c2".data],
        [[.str ( "0-15".data), .str ( "12.3".data), .num (mkRat 87 10)],
         [.str ( "15-30".data), .str ( "abc".data), .num (mkRat 91 10)],
         [.str ( "30-45".data), .str ( "7.5".data), .num (mkRat 62 10)],
         [.str ( "45-90".data), .str ( "5.0".data), .num (mkRat 44 10)]]⟩,
      ⟨[ "bucket".data, "c1".data, "c2".data],
        [[.str ( "0-33".data), .num (mkRat 405 10), .num (mkRat 382 10)],
         [.str ( "33-66".data), .num (mkRat 301 10), .num (mkRat 314 10)],
         [.str ( "66-90".data), .num (mkRat 200 10), .num (mkRat 199 10)],
         [.str ( "90-100".data), .num (mkRat 94 10),
           .num (mkRat 105 10)]]⟩) ∧
    load_and_process_data
      [ "Title".data, "Instruments: A".data, "Période: P".data,
        "Modèle: M".data, "Région: R".data,
        "Error Distribution: Direction (d0)".data, "bucket,c1,c2".data,
        "0-15,12.3,8.7".data, "15-30,abc,9.1".data,
        "30-45,7.5,6.2".data, "45-90,5.0,4.4".data,
        "Error Distribution: NEVA (d1)".data, "bucket,c1,c2".data,
        "0-33,40.5,38.2".data, "33-66,30.1,31.4".data,
        "66-90,20.0,19.9".data, "90-100,9.4,10.5".data]
      ≠ .error .malformedTable := by
  constructor
  · decide
  · decide
